import Mathlib

/-
Verification of the go-units library (package unit): typed physical
quantities (Length, Area, Speed, Temperature) backed by a float64 in a
base SI unit, with conversion accessors and threshold-based formatting.

Embedding notes.  Go float64 values are modelled by `GFloat`: NaN, signed
infinities, and finite values carried as exact rationals together with an
IEEE sign-of-zero bit.  All arithmetic the library performs on in-range
values is exact in this model (the library only scales by unit constants
and adds fixed offsets); comparisons, division by zero, NaN propagation
and the sign of zero follow the IEEE-754 rules that Go's float64
operators implement.  Go's `fmt.Sprintf("%g", x)` and `%v` on a float64
both print the shortest decimal digits that round-trip the float, using
fixed-point form when the decimal exponent is in [-4, 6) and e-form
otherwise; `GFloat.fmtG` reproduces this for values whose exact decimal
expansion is short (which includes every value the claims evaluate, where
the model's output coincides with the repository's own golden strings),
and NaN/±Inf print as "NaN"/"+Inf"/"-Inf" as in Go.
-/

set_option maxRecDepth 8000

namespace GoUnits

/-- Model of a Go float64 value: NaN, an infinity with its sign, or a
finite value given by an exact rational plus the IEEE sign bit of zero
(`negZero` is only meaningful when the rational is 0). -/
inductive GFloat : Type where
  | nan : GFloat
  | inf (neg : Bool) : GFloat
  | fin (q : ℚ) (negZero : Bool) : GFloat
deriving DecidableEq

/-- Embed an exact rational as a (positively signed) finite float value. -/
def GFloat.ofQ (q : ℚ) : GFloat := .fin q false

/-- IEEE sign bit of a value (unused for NaN). -/
def GFloat.isNeg : GFloat → Bool
  | .nan => false
  | .inf n => n
  | .fin q nz => decide (q < 0) || nz

/-- IEEE negation: flips the sign bit; the negation of a zero is the
oppositely signed zero. -/
def GFloat.neg : GFloat → GFloat
  | .nan => .nan
  | .inf n => .inf (!n)
  | .fin q nz => if q = 0 then .fin 0 (!nz) else .fin (-q) false

/-- IEEE `<`: false whenever an operand is NaN; -0 and +0 are equal. -/
def GFloat.lt : GFloat → GFloat → Bool
  | .nan, _ => false
  | _, .nan => false
  | .inf n₁, .inf n₂ => n₁ && !n₂
  | .inf n, .fin _ _ => n
  | .fin _ _, .inf n => !n
  | .fin p _, .fin q _ => decide (p < q)

/-- IEEE `<=`: false whenever an operand is NaN; -0 and +0 are equal. -/
def GFloat.le : GFloat → GFloat → Bool
  | .nan, _ => false
  | _, .nan => false
  | .inf n₁, .inf n₂ => n₁ || !n₂
  | .inf n, .fin _ _ => n
  | .fin _ _, .inf n => !n
  | .fin p _, .fin q _ => decide (p ≤ q)

/-- IEEE `>=` (Go's `>=` on float64). -/
def GFloat.ge (a b : GFloat) : Bool := GFloat.le b a

/-- IEEE `>` (Go's `>` on float64). -/
def GFloat.gt (a b : GFloat) : Bool := GFloat.lt b a

/-- IEEE `==`: NaN equals nothing, -0 equals +0. -/
def GFloat.beq : GFloat → GFloat → Bool
  | .nan, _ => false
  | _, .nan => false
  | .inf n₁, .inf n₂ => n₁ == n₂
  | .inf _, .fin _ _ => false
  | .fin _ _, .inf _ => false
  | .fin p _, .fin q _ => decide (p = q)

/-- IEEE addition (exact on finite operands in this model). -/
def GFloat.add : GFloat → GFloat → GFloat
  | .nan, _ => .nan
  | _, .nan => .nan
  | .inf n₁, .inf n₂ => if n₁ = n₂ then .inf n₁ else .nan
  | .inf n, .fin _ _ => .inf n
  | .fin _ _, .inf n => .inf n
  | .fin p np, .fin q nq =>
      .fin (p + q) (np && nq && decide (p = 0) && decide (q = 0))

/-- IEEE subtraction, as addition of the negation. -/
def GFloat.sub (a b : GFloat) : GFloat := a.add b.neg

/-- IEEE multiplication: the sign of a zero product is the xor of the
operand signs; infinity times zero is NaN. -/
def GFloat.mul : GFloat → GFloat → GFloat
  | .nan, _ => .nan
  | _, .nan => .nan
  | .inf n₁, .inf n₂ => .inf (xor n₁ n₂)
  | .inf n, .fin q nz => if q = 0 then .nan else .inf (xor n (decide (q < 0) || nz))
  | .fin q nz, .inf n => if q = 0 then .nan else .inf (xor (decide (q < 0) || nz) n)
  | .fin p np, .fin q nq =>
      .fin (p * q)
        (if p * q = 0 then xor (decide (p < 0) || np) (decide (q < 0) || nq) else false)

/-- IEEE division: a nonzero value divided by zero is a signed infinity,
zero divided by zero is NaN, a finite value divided by an infinity is a
signed zero. -/
def GFloat.div : GFloat → GFloat → GFloat
  | .nan, _ => .nan
  | _, .nan => .nan
  | .inf _, .inf _ => .nan
  | .inf n, .fin q nz => .inf (xor n (decide (q < 0) || nz))
  | .fin p np, .inf n => .fin 0 (xor (decide (p < 0) || np) n)
  | .fin p np, .fin q nz =>
      if q = 0 then
        (if p = 0 then .nan else .inf (xor (decide (p < 0)) nz))
      else
        .fin (p / q) (if p = 0 then xor np (decide (q < 0) || nz) else false)

/-- Number of decimal digits of a natural number (fuelled; fuel 80 covers
every value the claims evaluate). -/
def numDigits : ℕ → ℕ → ℕ
  | 0, _ => 1
  | f + 1, n => if n < 10 then 1 else numDigits f (n / 10) + 1

/-- Remove the trailing decimal zeros of a natural number (fuelled). -/
def stripZeros : ℕ → ℕ → ℕ
  | 0, n => n
  | f + 1, n => if n % 10 = 0 ∧ n ≠ 0 then stripZeros f (n / 10) else n

/-- Decimal digits of a natural number, left-padded with zeros to a
given width. -/
def padNat (n w : ℕ) : String :=
  String.mk (List.replicate (w - (toString n).length) '0') ++ toString n

/-- Exponent suffix of Go's e-form: sign always present, at least two
exponent digits (for example "e+06", "e-07"). -/
def expStr (e : ℤ) : String :=
  "e" ++ (if e < 0 then "-" else "+") ++ padNat e.natAbs 2

/-- Fixed-point rendering of the digit string `D` (which has `nd`
digits) with the decimal point after position `dp`. -/
def fmtFixed (D nd : ℕ) (dp : ℤ) : String :=
  if dp ≤ 0 then
    "0." ++ String.mk (List.replicate (-dp).toNat '0') ++ toString D
  else if (nd : ℤ) ≤ dp then
    toString D ++ String.mk (List.replicate (dp - nd).toNat '0')
  else
    toString (D / 10 ^ (nd - dp.toNat)) ++ "." ++
      padNat (D % 10 ^ (nd - dp.toNat)) (nd - dp.toNat)

/-- Scientific rendering <d.ddd>e±XX of the digit string `D` (with `nd`
digits) and decimal exponent `e`. -/
def fmtE (D nd : ℕ) (e : ℤ) : String :=
  (if nd = 1 then toString D
   else toString (D / 10 ^ (nd - 1)) ++ "." ++ padNat (D % 10 ^ (nd - 1)) (nd - 1))
  ++ expStr e

/-- Rendering of a positive rational with a finite decimal expansion, the
way Go's `%g` (shortest form) prints the corresponding float64: shortest
digits, fixed-point form when the decimal exponent lies in [-4, 6) and
e-form otherwise. -/
def fmtPosQ (q : ℚ) : String :=
  match (List.range 40).find? (fun k => 10 ^ k % q.den == 0) with
  | none => "?"
  | some k =>
    let N : ℕ := q.num.toNat * (10 ^ k / q.den)
    let D : ℕ := stripZeros 80 N
    let dp : ℤ := (numDigits 80 N : ℤ) - (k : ℤ)
    if dp - 1 < -4 ∨ 6 ≤ dp - 1 then fmtE D (numDigits 80 D) (dp - 1)
    else fmtFixed D (numDigits 80 D) dp

/-- Model of Go's `fmt.Sprintf("%g", x)` for a float64 `x`; `%v` formats
a float64 identically. -/
def GFloat.fmtG : GFloat → String
  | .nan => "NaN"
  | .inf n => if n then "-Inf" else "+Inf"
  | .fin q nz =>
      if q = 0 then (if nz then "-0" else "0")
      else if q < 0 then "-" ++ fmtPosQ (-q) else fmtPosQ q

/-- Length represents a linear dimension measurement in meters (float64
in the source). -/
abbrev Length := GFloat

/-- Area, in square meters. -/
abbrev Area := GFloat

/-- Speed, in meters per second. -/
abbrev Speed := GFloat

/-- Temperature, in Kelvin. -/
abbrev Temperature := GFloat

/-- Go `time.Duration`: an int64 count of nanoseconds. -/
abbrev Duration := ℤ

/-- Scale of the length unit Meter (`Meter Length = 1`). -/
def Meter : ℚ := 1

/-- `Kilometer = 1e3 * Meter`. -/
def Kilometer : ℚ := 1000 * Meter

/-- `Centimeter = 1e-2 * Meter`. -/
def Centimeter : ℚ := (1 / 100) * Meter

/-- `Millimeter = 1e-3 * Meter`. -/
def Millimeter : ℚ := (1 / 1000) * Meter

/-- `Micrometer = 1e-6 * Meter`. -/
def Micrometer : ℚ := (1 / 1000000) * Meter

/-- `Foot = 0.3048 * Meter`. -/
def Foot : ℚ := (3048 / 10000) * Meter

/-- `Mile = 5280 * Foot`. -/
def Mile : ℚ := 5280 * Foot

/-- `Inch = Foot / 12`. -/
def Inch : ℚ := Foot / 12

/-- `NauticalMile = 1852 * Meter`. -/
def NauticalMile : ℚ := 1852 * Meter

/-- `Length.Abs`: `if l < 0 { return -l }; return l`. -/
def Length.Abs (l : Length) : Length :=
  if GFloat.lt l (GFloat.ofQ 0) then GFloat.neg l else l

/-- `Length.Meters`: `float64(l)`. -/
def Length.Meters (l : Length) : GFloat := l

/-- `Length.Kilometers`: `float64(l / Kilometer)`. -/
def Length.Kilometers (l : Length) : GFloat := GFloat.div l (GFloat.ofQ Kilometer)

/-- `Length.Centimeters`: `float64(l / Centimeter)`. -/
def Length.Centimeters (l : Length) : GFloat := GFloat.div l (GFloat.ofQ Centimeter)

/-- `Length.Millimeters`: `float64(l / Millimeter)`. -/
def Length.Millimeters (l : Length) : GFloat := GFloat.div l (GFloat.ofQ Millimeter)

/-- `Length.Micrometers`: `float64(l / Micrometer)`. -/
def Length.Micrometers (l : Length) : GFloat := GFloat.div l (GFloat.ofQ Micrometer)

/-- `Length.Feet`: `float64(l / Foot)`. -/
def Length.Feet (l : Length) : GFloat := GFloat.div l (GFloat.ofQ Foot)

/-- `Length.Miles`: `float64(l / Mile)`. -/
def Length.Miles (l : Length) : GFloat := GFloat.div l (GFloat.ofQ Mile)

/-- `Length.Inches`: `float64(l / Inch)`. -/
def Length.Inches (l : Length) : GFloat := GFloat.div l (GFloat.ofQ Inch)

/-- `Length.NauticalMiles`: `float64(l / NauticalMile)`. -/
def Length.NauticalMiles (l : Length) : GFloat := GFloat.div l (GFloat.ofQ NauticalMile)

/-- Descriptor driving Length formatting: scale, Go constant name, and
display symbol (`unitDesc` in the source). -/
structure UnitDesc : Type where
  length : ℚ
  name : String
  symbol : String
deriving DecidableEq

/-- `kmDesc = unitDesc{Kilometer, "Kilometer", "km"}`. -/
def kmDesc : UnitDesc := ⟨Kilometer, "Kilometer", "km"⟩

/-- `meterDesc = unitDesc{Meter, "Meter", "m"}`. -/
def meterDesc : UnitDesc := ⟨Meter, "Meter", "m"⟩

/-- `unitThresholds`, kept in descending order of scale as in the
source. -/
def unitThresholds : List UnitDesc :=
  [kmDesc, meterDesc,
   ⟨Centimeter, "Centimeter", "cm"⟩,
   ⟨Millimeter, "Millimeter", "mm"⟩,
   ⟨Micrometer, "Micrometer", "µm"⟩]

/-- `Length.format`: bypass to meters when `l.Abs() >= 1000*kmDesc.length`,
otherwise the first threshold in `unitThresholds` that `l.Abs()` meets,
otherwise fall back to meters.  The loop over the slice is
`List.find?`. -/
def Length.format (l : Length) : String × UnitDesc :=
  if GFloat.ge (Length.Abs l) (GFloat.ofQ (1000 * kmDesc.length)) then
    (GFloat.fmtG (GFloat.div l (GFloat.ofQ meterDesc.length)), meterDesc)
  else
    match unitThresholds.find? (fun u => GFloat.ge (Length.Abs l) (GFloat.ofQ u.length)) with
    | some u => (GFloat.fmtG (GFloat.div l (GFloat.ofQ u.length)), u)
    | none => (GFloat.fmtG (GFloat.div l (GFloat.ofQ meterDesc.length)), meterDesc)

/-- `Length.String`: `fmt.Sprintf("%v%v", value, desc.symbol)`. -/
def Length.String (l : Length) :=
  (Length.format l).1 ++ (Length.format l).2.symbol

/-- `Length.GoString`: `fmt.Sprintf("%v * %v", value, desc.name)`. -/
def Length.GoString (l : Length) :=
  (Length.format l).1 ++ " * " ++ (Length.format l).2.name

/-- `time.Duration.Seconds`: `float64(sec) + float64(nsec)/1e9`, which
for the exact model equals d/1e9. -/
def Duration.Seconds (d : Duration) : GFloat := GFloat.ofQ ((d : ℚ) / 1000000000)

/-- Scale of the speed unit MeterPerSecond (`MeterPerSecond Speed = 1`). -/
def MeterPerSecond : ℚ := 1

/-- `hourInSeconds = Speed(time.Hour / time.Second)` = 3600. -/
def hourInSeconds : ℚ := 3600

/-- `KilometerPerHour = Speed(Kilometer/Meter) * MeterPerSecond / hourInSeconds`. -/
def KilometerPerHour : ℚ := (Kilometer / Meter) * MeterPerSecond / hourInSeconds

/-- `FootPerSecond = Speed(Foot/Meter) * MeterPerSecond`. -/
def FootPerSecond : ℚ := (Foot / Meter) * MeterPerSecond

/-- `MilePerHour = Speed(Mile/Foot) * FootPerSecond / hourInSeconds`. -/
def MilePerHour : ℚ := (Mile / Foot) * FootPerSecond / hourInSeconds

/-- `Knot = Speed(NauticalMile/Kilometer) * KilometerPerHour`. -/
def Knot : ℚ := (NauticalMile / Kilometer) * KilometerPerHour

/-- `Length.PerTime`: `Speed(l.Meters()/d.Seconds()) * MeterPerSecond`. -/
def Length.PerTime (l : Length) (d : Duration) : Speed :=
  GFloat.mul (GFloat.div (Length.Meters l) (Duration.Seconds d)) (GFloat.ofQ MeterPerSecond)

/-- `Speed.MetersPerSecond`: `float64(s / MeterPerSecond)`. -/
def Speed.MetersPerSecond (s : Speed) : GFloat := GFloat.div s (GFloat.ofQ MeterPerSecond)

/-- `Speed.String`: `fmt.Sprintf("%g m/s", s.MetersPerSecond())`. -/
def Speed.String (s : Speed) :=
  GFloat.fmtG (Speed.MetersPerSecond s) ++ " m/s"

/-- `Speed.GoString`: `fmt.Sprintf("%g * MeterPerSecond", s.MetersPerSecond())`. -/
def Speed.GoString (s : Speed) :=
  GFloat.fmtG (Speed.MetersPerSecond s) ++ " * MeterPerSecond"

/-- Scale of the temperature unit Kelvin (`Kelvin Temperature = 1`). -/
def Kelvin : ℚ := 1

/-- `Rankine = 5.0 / 9.0 * Kelvin` (exact in the model). -/
def Rankine : ℚ := (5 / 9) * Kelvin

/-- `celsius0 = 273.15 * Kelvin` (Go folds the untyped constant product
exactly; 273.15 = 27315/100). -/
def celsius0 : ℚ := (27315 / 100) * Kelvin

/-- `fahrenheit0 = 459.67 * Rankine` (459.67 = 45967/100). -/
def fahrenheit0 : ℚ := (45967 / 100) * Rankine

/-- `temperatureFromKelvin(k) = Temperature(k) * Kelvin`. -/
def temperatureFromKelvin (k : GFloat) : Temperature :=
  GFloat.mul k (GFloat.ofQ Kelvin)

/-- `TemperatureFromDegreesCelsius(c) = Temperature(c)*Kelvin + celsius0`. -/
def TemperatureFromDegreesCelsius (c : GFloat) : Temperature :=
  GFloat.add (GFloat.mul c (GFloat.ofQ Kelvin)) (GFloat.ofQ celsius0)

/-- `TemperatureFromDegreesFahrenheit(f) = Temperature(f)*Rankine + fahrenheit0`. -/
def TemperatureFromDegreesFahrenheit (f : GFloat) : Temperature :=
  GFloat.add (GFloat.mul f (GFloat.ofQ Rankine)) (GFloat.ofQ fahrenheit0)

/-- `Temperature.Kelvin`: `float64(t / Kelvin)`. -/
def Temperature.Kelvin (t : Temperature) : GFloat := GFloat.div t (GFloat.ofQ GoUnits.Kelvin)

/-- `Temperature.DegreesCelsius`: `float64((t - celsius0) / Kelvin)`. -/
def Temperature.DegreesCelsius (t : Temperature) : GFloat :=
  GFloat.div (GFloat.sub t (GFloat.ofQ celsius0)) (GFloat.ofQ GoUnits.Kelvin)

/-- `Temperature.DegreesFahrenheit`: `float64((t - fahrenheit0) / Rankine)`. -/
def Temperature.DegreesFahrenheit (t : Temperature) : GFloat :=
  GFloat.div (GFloat.sub t (GFloat.ofQ fahrenheit0)) (GFloat.ofQ GoUnits.Rankine)

/-- `Temperature.DegreesRankine`: `float64(t / Rankine)`. -/
def Temperature.DegreesRankine (t : Temperature) : GFloat :=
  GFloat.div t (GFloat.ofQ GoUnits.Rankine)

/-- `Temperature.String`: `fmt.Sprintf("%g K", t.Kelvin())`. -/
def Temperature.String (t : Temperature) :=
  GFloat.fmtG (Temperature.Kelvin t) ++ " K"

/-- `Temperature.GoString`: `fmt.Sprintf("%v * Kelvin", t.Kelvin())`. -/
def Temperature.GoString (t : Temperature) :=
  GFloat.fmtG (Temperature.Kelvin t) ++ " * Kelvin"

/-- Scale of the area unit SquareMeter (`SquareMeter Area = 1`). -/
def SquareMeter : ℚ := 1

/-- `SquareKilometer = 1e6 * SquareMeter`. -/
def SquareKilometer : ℚ := 1000000 * SquareMeter

/-- `Hectare = 1e4 * SquareMeter`. -/
def Hectare : ℚ := 10000 * SquareMeter

/-- `SquareCentimeter = 1e-4 * SquareMeter`. -/
def SquareCentimeter : ℚ := (1 / 10000) * SquareMeter

/-- `SquareMillimeter = 1e-6 * SquareMeter`. -/
def SquareMillimeter : ℚ := (1 / 1000000) * SquareMeter

/-- `SquareFoot = 0.3048 * 0.3048 * SquareMeter`. -/
def SquareFoot : ℚ := (3048 / 10000) * (3048 / 10000) * SquareMeter

/-- `SquareMile = 5280 * 5280 * SquareFoot`. -/
def SquareMile : ℚ := 5280 * 5280 * SquareFoot

/-- `Acre = 66 * 660 * SquareFoot`. -/
def Acre : ℚ := 66 * 660 * SquareFoot

/-- `SquareInch = SquareFoot / (12 * 12)`. -/
def SquareInch : ℚ := SquareFoot / (12 * 12)

/-- `Area.Abs`: `if a < 0 { return -a }; return a`. -/
def Area.Abs (a : Area) : Area :=
  if GFloat.lt a (GFloat.ofQ 0) then GFloat.neg a else a

/-- `Area.SquareMeters`: `float64(a)`. -/
def Area.SquareMeters (a : Area) : GFloat := a

/-- Descriptor driving Area formatting (`areaUnitDesc` in the source). -/
structure AreaUnitDesc : Type where
  area : ℚ
  name : String
  symbol : String
deriving DecidableEq

/-- `squareKmDesc = areaUnitDesc{SquareKilometer, "SquareKilometer", "km^2"}`. -/
def squareKmDesc : AreaUnitDesc := ⟨SquareKilometer, "SquareKilometer", "km^2"⟩

/-- `squareMeterDesc = areaUnitDesc{SquareMeter, "SquareMeter", "m^2"}`. -/
def squareMeterDesc : AreaUnitDesc := ⟨SquareMeter, "SquareMeter", "m^2"⟩

/-- `areaUnitThresholds`, in descending order of scale. -/
def areaUnitThresholds : List AreaUnitDesc :=
  [squareKmDesc, squareMeterDesc,
   ⟨SquareCentimeter, "SquareCentimeter", "cm^2"⟩,
   ⟨SquareMillimeter, "SquareMillimeter", "mm^2"⟩]

/-- `Area.format`: bypass to square meters when
`a.Abs() > 1_000_000*squareKmDesc.area` (strict), otherwise the first
threshold in `areaUnitThresholds` that `a.Abs()` meets, otherwise fall
back to square meters. -/
def Area.format (a : Area) : String × AreaUnitDesc :=
  if GFloat.gt (Area.Abs a) (GFloat.ofQ (1000000 * squareKmDesc.area)) then
    (GFloat.fmtG (Area.SquareMeters a), squareMeterDesc)
  else
    match areaUnitThresholds.find? (fun u => GFloat.ge (Area.Abs a) (GFloat.ofQ u.area)) with
    | some u => (GFloat.fmtG (GFloat.div a (GFloat.ofQ u.area)), u)
    | none => (GFloat.fmtG (Area.SquareMeters a), squareMeterDesc)

/-- `Area.String`: `fmt.Sprintf("%v%v", value, desc.symbol)`. -/
def Area.String (a : Area) :=
  (Area.format a).1 ++ (Area.format a).2.symbol

/-- `Area.GoString`: `fmt.Sprintf("%v * %v", value, desc.name)`. -/
def Area.GoString (a : Area) :=
  (Area.format a).1 ++ " * " ++ (Area.format a).2.name

/-- The multiplicative scales of every named Length unit. -/
def lengthUnits : List ℚ :=
  [Kilometer, Meter, Centimeter, Millimeter, Micrometer, Foot, Mile, Inch, NauticalMile]

/-- The multiplicative scales of every named Area unit. -/
def areaUnits : List ℚ :=
  [SquareKilometer, Hectare, SquareMeter, SquareCentimeter, SquareMillimeter,
   SquareFoot, SquareMile, Acre, SquareInch]

/-- The multiplicative scales of every named Speed unit. -/
def speedUnits : List ℚ :=
  [MeterPerSecond, KilometerPerHour, FootPerSecond, MilePerHour, Knot]

/-- The multiplicative scales of the named Temperature units (Celsius and
Fahrenheit are affine constructors, not multiplicative units). -/
def temperatureUnits : List ℚ := [Kelvin, Rankine]

/-- All multiplicative named unit scales of the library. -/
def namedUnitScales : List ℚ :=
  lengthUnits ++ areaUnits ++ speedUnits ++ temperatureUnits

/-! Helper lemmas about the float model. -/

theorem GFloat.ofQ_add (a b : ℚ) :
    GFloat.add (GFloat.ofQ a) (GFloat.ofQ b) = GFloat.ofQ (a + b) := by
  simp [GFloat.add, GFloat.ofQ]

theorem GFloat.ofQ_sub (a b : ℚ) :
    GFloat.sub (GFloat.ofQ a) (GFloat.ofQ b) = GFloat.ofQ (a - b) := by
  rcases eq_or_ne b 0 with hb | hb
  · subst hb
    simp [GFloat.sub, GFloat.neg, GFloat.add, GFloat.ofQ]
  · simp [GFloat.sub, GFloat.neg, GFloat.add, GFloat.ofQ, hb, sub_eq_add_neg]

theorem GFloat.ofQ_mul_pos (a b : ℚ) (hb : 0 < b) :
    GFloat.mul (GFloat.ofQ a) (GFloat.ofQ b) = GFloat.ofQ (a * b) := by
  rcases eq_or_ne (a * b) 0 with h | h
  · have ha : a = 0 := by
      rcases mul_eq_zero.mp h with h1 | h1
      · exact h1
      · exact absurd h1 hb.ne'
    subst ha
    simp [GFloat.mul, GFloat.ofQ, not_lt.mpr hb.le]
  · simp [GFloat.mul, GFloat.ofQ, h]

theorem GFloat.ofQ_div_pos (a b : ℚ) (hb : 0 < b) :
    GFloat.div (GFloat.ofQ a) (GFloat.ofQ b) = GFloat.ofQ (a / b) := by
  rcases eq_or_ne a 0 with ha | ha
  · subst ha
    simp [GFloat.div, GFloat.ofQ, hb.ne', not_lt.mpr hb.le]
  · simp [GFloat.div, GFloat.ofQ, hb.ne', ha]

theorem decide_q_one_lt_zero : decide ((1 : ℚ) < 0) = false :=
  decide_eq_false (by norm_num)

theorem GFloat.fmtG_div_one (x : GFloat) :
    GFloat.fmtG (GFloat.div x (GFloat.ofQ 1)) = GFloat.fmtG x := by
  rcases x with _ | n | ⟨p, np⟩
  · rfl
  · cases n <;> simp [GFloat.div, GFloat.ofQ, GFloat.fmtG, decide_q_one_lt_zero]
  · rcases eq_or_ne p 0 with hp | hp
    · subst hp
      cases np <;> simp [GFloat.div, GFloat.ofQ, GFloat.fmtG, decide_q_one_lt_zero]
    · simp [GFloat.div, GFloat.ofQ, GFloat.fmtG, hp]

theorem GFloat.mul_div_ofQ_one (a b : GFloat) :
    GFloat.mul (GFloat.div a b) (GFloat.ofQ 1) = GFloat.div a b := by
  rcases a with _ | n | ⟨a0, na⟩ <;> rcases b with _ | m | ⟨b0, nb⟩
  · rfl
  · rfl
  · rfl
  · rfl
  · rfl
  · simp [GFloat.div, GFloat.mul, GFloat.ofQ, decide_q_one_lt_zero]
  · rfl
  · simp [GFloat.div, GFloat.mul, GFloat.ofQ, decide_q_one_lt_zero]
  · rcases eq_or_ne b0 0 with hb | hb
    · rcases eq_or_ne a0 0 with ha | ha
      · simp [GFloat.div, GFloat.mul, GFloat.ofQ, ha, hb]
      · simp [GFloat.div, GFloat.mul, GFloat.ofQ, ha, hb, decide_q_one_lt_zero]
    · rcases eq_or_ne a0 0 with ha | ha
      · simp [GFloat.div, GFloat.mul, GFloat.ofQ, ha, hb, decide_q_one_lt_zero]
      · have hq : a0 / b0 ≠ 0 := div_ne_zero ha hb
        simp [GFloat.div, GFloat.mul, GFloat.ofQ, ha, hb, hq, decide_q_one_lt_zero]

theorem GFloat.round_trip_q (x c : ℚ) (hc : c ≠ 0) :
    GFloat.div (GFloat.mul (GFloat.ofQ x) (GFloat.ofQ c)) (GFloat.ofQ c) = GFloat.ofQ x := by
  rcases eq_or_ne x 0 with hx | hx
  · subst hx
    simp [GFloat.mul, GFloat.div, GFloat.ofQ, hc]
  · have hxc : x * c ≠ 0 := mul_ne_zero hx hc
    simp [GFloat.mul, GFloat.div, GFloat.ofQ, hc, hxc, mul_div_cancel_right₀ x hc]

/-! Claim theorems. -/

/-- C2.  Length threshold-selection literal cases: the twelve golden
strings of the specification, evaluated through the embedded
`Length.String` (the inputs are the exact rationals denoted by the Go
literals, e.g. 9.999e-4 = 9999/10000000). -/
theorem length_string_literal_cases :
    Length.String (GFloat.ofQ (1000000 * Meter)) = "1e+06m" ∧
    Length.String (GFloat.ofQ (999000 * Meter)) = "999km" ∧
    Length.String (GFloat.ofQ (1000 * Meter)) = "1km" ∧
    Length.String (GFloat.ofQ ((99999 / 100) * Meter)) = "999.99m" ∧
    Length.String (GFloat.ofQ (1 * Meter)) = "1m" ∧
    Length.String (GFloat.ofQ ((998 / 1000) * Meter)) = "99.8cm" ∧
    Length.String (GFloat.ofQ ((1 / 100) * Meter)) = "1cm" ∧
    Length.String (GFloat.ofQ ((99 / 10000) * Meter)) = "9.9mm" ∧
    Length.String (GFloat.ofQ ((1 / 1000) * Meter)) = "1mm" ∧
    Length.String (GFloat.ofQ ((9999 / 10000000) * Meter)) = "999.9µm" ∧
    Length.String (GFloat.ofQ ((1 / 1000000) * Meter)) = "1µm" ∧
    Length.String (GFloat.ofQ ((999 / 1000000000) * Meter)) = "9.99e-07m" := by
  refine ⟨?_, ?_, ?_, ?_, ?_, ?_, ?_, ?_, ?_, ?_, ?_, ?_⟩ <;> with_unfolding_all decide

/-- C5.  Round-trip through a named unit: multiplying a finite value by
any named unit scale and dividing back by that scale returns the value
exactly in the model (exact equality implies the claimed relative
tolerances of 1e-15, and 1e-13 for Temperature). -/
theorem unit_round_trip :
    ∀ (x u : ℚ), u ∈ namedUnitScales →
      GFloat.div (GFloat.mul (GFloat.ofQ x) (GFloat.ofQ u)) (GFloat.ofQ u) = GFloat.ofQ x := by
  intro x u hu
  have hall : namedUnitScales.all (fun v => decide (v ≠ 0)) = true := by
    with_unfolding_all decide
  have hne : u ≠ 0 := by simpa using List.all_eq_true.mp hall u hu
  exact GFloat.round_trip_q x u hne

/-- Witness for C5 at x = 3 and the Mile unit. -/
theorem unit_round_trip_witness :
    Mile ∈ namedUnitScales ∧
    GFloat.div (GFloat.mul (GFloat.ofQ 3) (GFloat.ofQ Mile)) (GFloat.ofQ Mile) = GFloat.ofQ 3 :=
  ⟨by simp [namedUnitScales, lengthUnits],
   unit_round_trip 3 Mile (by simp [namedUnitScales, lengthUnits])⟩

/-- C7.  Speed and Temperature use single-unit formatting with no
threshold selection: String/GoString always render the base-unit value
with `%g` followed by the fixed suffix (the base-unit accessor divides by
the unit scale 1, which changes nothing). -/
theorem single_unit_formatting :
    (∀ s : Speed,
      Speed.String s = GFloat.fmtG s ++ " m/s" ∧
      Speed.GoString s = GFloat.fmtG s ++ " * MeterPerSecond") ∧
    (∀ t : Temperature,
      Temperature.String t = GFloat.fmtG t ++ " K" ∧
      Temperature.GoString t = GFloat.fmtG t ++ " * Kelvin") := by
  constructor
  · intro s
    constructor <;>
      simp [Speed.String, Speed.GoString, Speed.MetersPerSecond, MeterPerSecond,
        GFloat.fmtG_div_one]
  · intro t
    constructor <;>
      simp [Temperature.String, Temperature.GoString, Temperature.Kelvin, Kelvin,
        GFloat.fmtG_div_one]

/-- C6.  Temperature affine conversions: the Celsius/Fahrenheit
constructors are `c*Kelvin + 273.15*Kelvin` and `f*Rankine +
459.67*Rankine`; the accessors invert them; absolute zero converts to
Celsius -273.15, Fahrenheit -459.67, and Rankine 0. -/
theorem temperature_affine :
    (∀ c : GFloat, TemperatureFromDegreesCelsius c =
      GFloat.add (GFloat.mul c (GFloat.ofQ Kelvin))
        (GFloat.mul (GFloat.ofQ (27315 / 100)) (GFloat.ofQ Kelvin))) ∧
    (∀ f : GFloat, TemperatureFromDegreesFahrenheit f =
      GFloat.add (GFloat.mul f (GFloat.ofQ Rankine))
        (GFloat.mul (GFloat.ofQ (45967 / 100)) (GFloat.ofQ Rankine))) ∧
    (∀ t : Temperature, Temperature.DegreesCelsius t =
      GFloat.div (GFloat.sub t (GFloat.mul (GFloat.ofQ (27315 / 100)) (GFloat.ofQ Kelvin)))
        (GFloat.ofQ Kelvin)) ∧
    (∀ t : Temperature, Temperature.DegreesFahrenheit t =
      GFloat.div (GFloat.sub t (GFloat.mul (GFloat.ofQ (45967 / 100)) (GFloat.ofQ Rankine)))
        (GFloat.ofQ Rankine)) ∧
    (∀ c : ℚ, Temperature.DegreesCelsius (TemperatureFromDegreesCelsius (GFloat.ofQ c)) =
      GFloat.ofQ c) ∧
    (∀ f : ℚ, Temperature.DegreesFahrenheit (TemperatureFromDegreesFahrenheit (GFloat.ofQ f)) =
      GFloat.ofQ f) ∧
    Temperature.DegreesCelsius (GFloat.ofQ 0) = GFloat.ofQ (-(27315 / 100)) ∧
    Temperature.DegreesFahrenheit (GFloat.ofQ 0) = GFloat.ofQ (-(45967 / 100)) ∧
    Temperature.DegreesRankine (GFloat.ofQ 0) = GFloat.ofQ 0 := by
  have hK : (0 : ℚ) < Kelvin := by norm_num [Kelvin]
  have hR : (0 : ℚ) < Rankine := by norm_num [Rankine, Kelvin]
  have hcel : GFloat.mul (GFloat.ofQ (27315 / 100)) (GFloat.ofQ Kelvin) =
      GFloat.ofQ celsius0 := by
    rw [GFloat.ofQ_mul_pos _ _ hK]
    rfl
  have hfah : GFloat.mul (GFloat.ofQ (45967 / 100)) (GFloat.ofQ Rankine) =
      GFloat.ofQ fahrenheit0 := by
    rw [GFloat.ofQ_mul_pos _ _ hR]
    rfl
  refine ⟨?_, ?_, ?_, ?_, ?_, ?_, ?_, ?_, ?_⟩
  · intro c
    rw [hcel]
    rfl
  · intro f
    rw [hfah]
    rfl
  · intro t
    rw [hcel]
    rfl
  · intro t
    rw [hfah]
    rfl
  · intro c
    unfold Temperature.DegreesCelsius TemperatureFromDegreesCelsius
    rw [GFloat.ofQ_mul_pos _ _ hK, GFloat.ofQ_add, GFloat.ofQ_sub, GFloat.ofQ_div_pos _ _ hK]
    congr 1
    rw [add_sub_cancel_right]
    exact mul_div_cancel_right₀ c hK.ne'
  · intro f
    unfold Temperature.DegreesFahrenheit TemperatureFromDegreesFahrenheit
    rw [GFloat.ofQ_mul_pos _ _ hR, GFloat.ofQ_add, GFloat.ofQ_sub, GFloat.ofQ_div_pos _ _ hR]
    congr 1
    rw [add_sub_cancel_right]
    exact mul_div_cancel_right₀ f hR.ne'
  · unfold Temperature.DegreesCelsius
    rw [GFloat.ofQ_sub, GFloat.ofQ_div_pos _ _ hK]
    congr 1
    norm_num [celsius0, Kelvin]
  · unfold Temperature.DegreesFahrenheit
    rw [GFloat.ofQ_sub, GFloat.ofQ_div_pos _ _ hR]
    congr 1
    norm_num [fahrenheit0, Rankine, Kelvin]
  · unfold Temperature.DegreesRankine
    rw [GFloat.ofQ_div_pos _ _ hR]
    congr 1
    norm_num

/-- C8 counterexample: at the concrete input NaN, `Abs` returns NaN, and
under Go's float comparisons neither `NaN >= 0` nor
`NaN == (-NaN).Abs()` holds, so the claim fails as stated for x = NaN. -/
theorem abs_nonneg_counterexample :
    GFloat.ge (Length.Abs GFloat.nan) (GFloat.ofQ 0) = false ∧
    GFloat.beq (Length.Abs GFloat.nan) (Length.Abs (GFloat.neg GFloat.nan)) = false := by
  with_unfolding_all decide

/-- C8, amended: for every value other than NaN, `x.Abs() >= 0` and
`x.Abs() == (-x).Abs()` (IEEE comparisons), for Length and Area alike;
and `Abs` of the value 0 is 0. -/
theorem abs_nonneg_amended :
    (∀ x : GFloat, x ≠ GFloat.nan →
      GFloat.ge (Length.Abs x) (GFloat.ofQ 0) = true ∧
      GFloat.beq (Length.Abs x) (Length.Abs (GFloat.neg x)) = true ∧
      GFloat.ge (Area.Abs x) (GFloat.ofQ 0) = true ∧
      GFloat.beq (Area.Abs x) (Area.Abs (GFloat.neg x)) = true) ∧
    Length.Abs (GFloat.ofQ 0) = GFloat.ofQ 0 ∧
    Area.Abs (GFloat.ofQ 0) = GFloat.ofQ 0 := by
  have harea : Area.Abs = Length.Abs := rfl
  have hlen : ∀ x : GFloat, x ≠ GFloat.nan →
      GFloat.ge (Length.Abs x) (GFloat.ofQ 0) = true ∧
      GFloat.beq (Length.Abs x) (Length.Abs (GFloat.neg x)) = true := by
    intro x hx
    rcases x with _ | n | ⟨p, np⟩
    · exact absurd rfl hx
    · cases n <;> exact ⟨rfl, rfl⟩
    · rcases lt_trichotomy p 0 with h | h | h
      · constructor
        · simp [Length.Abs, GFloat.lt, GFloat.neg, GFloat.ge, GFloat.le, GFloat.ofQ, h, h.ne,
            le_of_lt (neg_pos.mpr h)]
        · simp [Length.Abs, GFloat.lt, GFloat.neg, GFloat.beq, GFloat.ofQ, h, h.ne,
            not_lt.mpr (le_of_lt (neg_pos.mpr h))]
      · subst h
        cases np <;> exact ⟨rfl, rfl⟩
      · constructor
        · simp [Length.Abs, GFloat.lt, GFloat.ge, GFloat.le, GFloat.ofQ, not_lt.mpr h.le, h.le]
        · simp [Length.Abs, GFloat.lt, GFloat.neg, GFloat.beq, GFloat.ofQ, not_lt.mpr h.le,
            h.ne', h, neg_lt_zero.mpr h]
  refine ⟨?_, rfl, rfl⟩
  intro x hx
  obtain ⟨h1, h2⟩ := hlen x hx
  exact ⟨h1, h2, by rw [harea]; exact h1, by rw [harea]; exact h2⟩

theorem unitThresholds_pos :
    ∀ u ∈ unitThresholds, 0 < u.length := by
  have hall : unitThresholds.all (fun v => decide (0 < v.length)) = true := by
    with_unfolding_all decide
  intro u hu
  simpa using List.all_eq_true.mp hall u hu

theorem GFloat.fmtG_div_neg (q c : ℚ) (hq : 0 < q) (hc : 0 < c) :
    GFloat.fmtG (GFloat.div (.fin (-q) false) (GFloat.ofQ c)) =
      "-" ++ GFloat.fmtG (GFloat.div (.fin q false) (GFloat.ofQ c)) := by
  have hnq : -q ≠ 0 := neg_ne_zero.mpr hq.ne'
  have hqc : 0 < q / c := div_pos hq hc
  simp only [GFloat.div, GFloat.ofQ, if_neg hc.ne', if_neg hnq, if_neg hq.ne', neg_div]
  simp [GFloat.fmtG, hqc.ne', not_lt.mpr hqc.le, neg_lt_zero.mpr hqc,
    neg_ne_zero.mpr hqc.ne']

theorem length_format_neg_pos (q : ℚ) (hq : 0 < q) :
    Length.format (.fin (-q) false) =
      ("-" ++ (Length.format (.fin q false)).1, (Length.format (.fin q false)).2) := by
  have habs : Length.Abs (.fin (-q) false) = .fin q false := by
    simp [Length.Abs, GFloat.lt, GFloat.neg, GFloat.ofQ, neg_lt_zero.mpr hq,
      neg_ne_zero.mpr hq.ne']
  have habs2 : Length.Abs (.fin q false) = .fin q false := by
    simp [Length.Abs, GFloat.lt, GFloat.ofQ, not_lt.mpr hq.le]
  have hM : (0 : ℚ) < meterDesc.length := by norm_num [meterDesc, Meter]
  unfold Length.format
  rw [habs, habs2]
  by_cases hg : GFloat.ge (GFloat.fin q false) (GFloat.ofQ (1000 * kmDesc.length)) = true
  · rw [if_pos hg, if_pos hg, GFloat.fmtG_div_neg q meterDesc.length hq hM]
  · rw [if_neg hg, if_neg hg]
    rcases hfind : unitThresholds.find?
        (fun u => GFloat.ge (GFloat.fin q false) (GFloat.ofQ u.length)) with _ | u
    · simp only [hfind]
      rw [GFloat.fmtG_div_neg q meterDesc.length hq hM]
    · have hupos : 0 < u.length :=
        unitThresholds_pos u (List.mem_of_find?_eq_some hfind)
      simp only [hfind]
      rw [GFloat.fmtG_div_neg q u.length hq hupos]

theorem GFloat.not_ge_of_lt_ofQ (x : GFloat) (c : ℚ)
    (h : GFloat.lt x (GFloat.ofQ c) = true) : GFloat.ge x (GFloat.ofQ c) = false := by
  rcases x with _ | n | ⟨p, np⟩
  · simp [GFloat.lt] at h
  · cases n
    · simp [GFloat.lt, GFloat.ofQ] at h
    · simp [GFloat.ge, GFloat.le, GFloat.ofQ]
  · have hp : p < c := by simpa [GFloat.lt, GFloat.ofQ] using h
    simpa [GFloat.ge, GFloat.le, GFloat.ofQ] using not_le.mpr hp

theorem length_format_of_not_bypass (l : Length)
    (hbp : GFloat.ge (Length.Abs l) (GFloat.ofQ (1000 * kmDesc.length)) = false) :
    Length.format l =
      match unitThresholds.find?
          (fun u => GFloat.ge (Length.Abs l) (GFloat.ofQ u.length)) with
      | some u => (GFloat.fmtG (GFloat.div l (GFloat.ofQ u.length)), u)
      | none => (GFloat.fmtG (GFloat.div l (GFloat.ofQ meterDesc.length)), meterDesc) := by
  unfold Length.format
  rw [if_neg (by simp [hbp])]

theorem area_format_of_not_bypass (a : Area)
    (hbp : GFloat.gt (Area.Abs a) (GFloat.ofQ (1000000 * squareKmDesc.area)) = false) :
    Area.format a =
      match areaUnitThresholds.find?
          (fun u => GFloat.ge (Area.Abs a) (GFloat.ofQ u.area)) with
      | some u => (GFloat.fmtG (GFloat.div a (GFloat.ofQ u.area)), u)
      | none => (GFloat.fmtG (Area.SquareMeters a), squareMeterDesc) := by
  unfold Area.format
  rw [if_neg (by simp [hbp])]

/-- C1.  Best-fit unit selection: for every Length whose absolute value
is below 1000 kilometers, the formatter picks the first (equivalently,
because the list is sorted in descending order of scale: the largest)
descriptor in `unitThresholds` whose scale the absolute value meets, and
renders the value divided by that scale in that unit; if no threshold is
met, it falls back to compact meter formatting. -/
theorem length_format_best_fit (l : Length)
    (hl : GFloat.lt (Length.Abs l) (GFloat.ofQ (1000 * kmDesc.length)) = true) :
    (∀ u ∈ unitThresholds,
      GFloat.ge (Length.Abs l) (GFloat.ofQ u.length) = true →
      (∀ v ∈ unitThresholds, u.length < v.length →
        GFloat.ge (Length.Abs l) (GFloat.ofQ v.length) = false) →
      Length.format l = (GFloat.fmtG (GFloat.div l (GFloat.ofQ u.length)), u)) ∧
    ((∀ u ∈ unitThresholds, GFloat.ge (Length.Abs l) (GFloat.ofQ u.length) = false) →
      Length.format l = (GFloat.fmtG (GFloat.div l (GFloat.ofQ meterDesc.length)), meterDesc)) := by
  have hbp : GFloat.ge (Length.Abs l) (GFloat.ofQ (1000 * kmDesc.length)) = false :=
    GFloat.not_ge_of_lt_ofQ _ _ hl
  rw [length_format_of_not_bypass l hbp]
  have hmem_km : kmDesc ∈ unitThresholds := by simp [unitThresholds]
  have hmem_m : meterDesc ∈ unitThresholds := by simp [unitThresholds]
  have hmem_cm : (⟨Centimeter, "Centimeter", "cm"⟩ : UnitDesc) ∈ unitThresholds := by
    simp [unitThresholds]
  have hmem_mm : (⟨Millimeter, "Millimeter", "mm"⟩ : UnitDesc) ∈ unitThresholds := by
    simp [unitThresholds]
  constructor
  · intro u hu hge hmax
    simp only [unitThresholds, List.mem_cons, List.not_mem_nil, or_false] at hu
    rcases hu with rfl | rfl | rfl | rfl | rfl
    · simp only [unitThresholds, List.find?_cons, hge]
    · have hkm : GFloat.ge (Length.Abs l) (GFloat.ofQ kmDesc.length) = false :=
        hmax kmDesc hmem_km (by norm_num [kmDesc, meterDesc, Kilometer, Meter])
      simp only [unitThresholds, List.find?_cons, hge, hkm]
    · have hkm : GFloat.ge (Length.Abs l) (GFloat.ofQ kmDesc.length) = false :=
        hmax kmDesc hmem_km (by norm_num [kmDesc, Kilometer, Meter, Centimeter])
      have hm : GFloat.ge (Length.Abs l) (GFloat.ofQ meterDesc.length) = false :=
        hmax meterDesc hmem_m (by norm_num [meterDesc, Meter, Centimeter])
      simp only [unitThresholds, List.find?_cons, hge, hkm, hm]
    · have hkm : GFloat.ge (Length.Abs l) (GFloat.ofQ kmDesc.length) = false :=
        hmax kmDesc hmem_km (by norm_num [kmDesc, Kilometer, Meter, Millimeter])
      have hm : GFloat.ge (Length.Abs l) (GFloat.ofQ meterDesc.length) = false :=
        hmax meterDesc hmem_m (by norm_num [meterDesc, Meter, Millimeter])
      have hcm : GFloat.ge (Length.Abs l)
          (GFloat.ofQ (⟨Centimeter, "Centimeter", "cm"⟩ : UnitDesc).length) = false :=
        hmax _ hmem_cm (by norm_num [Centimeter, Meter, Millimeter])
      simp only [unitThresholds, List.find?_cons, hge, hkm, hm, hcm]
    · have hkm : GFloat.ge (Length.Abs l) (GFloat.ofQ kmDesc.length) = false :=
        hmax kmDesc hmem_km (by norm_num [kmDesc, Kilometer, Meter, Micrometer])
      have hm : GFloat.ge (Length.Abs l) (GFloat.ofQ meterDesc.length) = false :=
        hmax meterDesc hmem_m (by norm_num [meterDesc, Meter, Micrometer])
      have hcm : GFloat.ge (Length.Abs l)
          (GFloat.ofQ (⟨Centimeter, "Centimeter", "cm"⟩ : UnitDesc).length) = false :=
        hmax _ hmem_cm (by norm_num [Centimeter, Meter, Micrometer])
      have hmm : GFloat.ge (Length.Abs l)
          (GFloat.ofQ (⟨Millimeter, "Millimeter", "mm"⟩ : UnitDesc).length) = false :=
        hmax _ hmem_mm (by norm_num [Millimeter, Meter, Micrometer])
      simp only [unitThresholds, List.find?_cons, hge, hkm, hm, hcm, hmm]
  · intro hall
    have h1 := hall kmDesc hmem_km
    have h2 := hall meterDesc hmem_m
    have h3 := hall _ hmem_cm
    have h4 := hall _ hmem_mm
    have h5 := hall (⟨Micrometer, "Micrometer", "µm"⟩ : UnitDesc) (by simp [unitThresholds])
    simp only [unitThresholds, List.find?_cons, List.find?_nil, h1, h2, h3, h4, h5]

/-- Witness for C1 at l = 0.5 meters, whose best-fit unit is the
centimeter, and discharging the threshold hypotheses by evaluation. -/
theorem length_format_best_fit_witness :
    Length.format (GFloat.ofQ (1 / 2)) =
      (GFloat.fmtG (GFloat.div (GFloat.ofQ (1 / 2))
        (GFloat.ofQ (⟨Centimeter, "Centimeter", "cm"⟩ : UnitDesc).length)),
       (⟨Centimeter, "Centimeter", "cm"⟩ : UnitDesc)) :=
  (length_format_best_fit (GFloat.ofQ (1 / 2)) (by with_unfolding_all decide)).1
    (⟨Centimeter, "Centimeter", "cm"⟩ : UnitDesc) (by simp [unitThresholds])
    (by with_unfolding_all decide)
    (by with_unfolding_all decide)

/-- C3.  Bypass-threshold asymmetry: Length formatting bypasses the unit
list to compact meters exactly when `|l| >= 1000*Kilometer` (inclusive:
exactly 1000 km renders as "1e+06m"), whereas Area formatting bypasses to
compact square meters only when `|a| > 1_000_000*SquareKilometer`
(strict: exactly 1e6 km^2 still renders as "1e+06km^2"). -/
theorem bypass_threshold_asymmetry :
    (∀ l : Length, GFloat.ge (Length.Abs l) (GFloat.ofQ (1000 * kmDesc.length)) = true →
      Length.format l = (GFloat.fmtG (GFloat.div l (GFloat.ofQ meterDesc.length)), meterDesc)) ∧
    (∀ l : Length, GFloat.ge (Length.Abs l) (GFloat.ofQ kmDesc.length) = true →
      GFloat.ge (Length.Abs l) (GFloat.ofQ (1000 * kmDesc.length)) = false →
      Length.format l = (GFloat.fmtG (GFloat.div l (GFloat.ofQ kmDesc.length)), kmDesc)) ∧
    (∀ a : Area, GFloat.gt (Area.Abs a) (GFloat.ofQ (1000000 * squareKmDesc.area)) = true →
      Area.format a = (GFloat.fmtG (Area.SquareMeters a), squareMeterDesc)) ∧
    (∀ a : Area, GFloat.ge (Area.Abs a) (GFloat.ofQ squareKmDesc.area) = true →
      GFloat.gt (Area.Abs a) (GFloat.ofQ (1000000 * squareKmDesc.area)) = false →
      Area.format a = (GFloat.fmtG (GFloat.div a (GFloat.ofQ squareKmDesc.area)), squareKmDesc)) ∧
    Length.String (GFloat.ofQ (1000 * Kilometer)) = "1e+06m" ∧
    Area.String (GFloat.ofQ (1000000 * SquareKilometer)) = "1e+06km^2" := by
  refine ⟨?_, ?_, ?_, ?_, ?_, ?_⟩
  · intro l h
    unfold Length.format
    rw [if_pos h]
  · intro l h hbp
    rw [length_format_of_not_bypass l hbp]
    simp only [unitThresholds, List.find?_cons, h]
  · intro a h
    unfold Area.format
    rw [if_pos h]
  · intro a h hbp
    rw [area_format_of_not_bypass a hbp]
    simp only [areaUnitThresholds, List.find?_cons, h]
  · with_unfolding_all decide
  · with_unfolding_all decide

/-- Witness for C3: the Length bypass at 2000 km, the Length kilometer
branch at 5 km, the Area bypass at 2e12 square meters, and the Area
kilometer branch exactly at the inclusive boundary 1e6 square
kilometers. -/
theorem bypass_threshold_asymmetry_witness :
    Length.format (GFloat.ofQ 2000000) =
      (GFloat.fmtG (GFloat.div (GFloat.ofQ 2000000) (GFloat.ofQ meterDesc.length)), meterDesc) ∧
    Length.format (GFloat.ofQ 5000) =
      (GFloat.fmtG (GFloat.div (GFloat.ofQ 5000) (GFloat.ofQ kmDesc.length)), kmDesc) ∧
    Area.format (GFloat.ofQ 2000000000000) =
      (GFloat.fmtG (Area.SquareMeters (GFloat.ofQ 2000000000000)), squareMeterDesc) ∧
    Area.format (GFloat.ofQ 1000000000000) =
      (GFloat.fmtG (GFloat.div (GFloat.ofQ 1000000000000) (GFloat.ofQ squareKmDesc.area)),
       squareKmDesc) :=
  ⟨bypass_threshold_asymmetry.1 _ (by with_unfolding_all decide),
   bypass_threshold_asymmetry.2.1 _ (by with_unfolding_all decide)
     (by with_unfolding_all decide),
   bypass_threshold_asymmetry.2.2.1 _ (by with_unfolding_all decide),
   bypass_threshold_asymmetry.2.2.2.1 _ (by with_unfolding_all decide)
     (by with_unfolding_all decide)⟩

/-- C4 counterexample: x = +Inf satisfies `x >= 0` under Go's float
comparison, yet `(-x).String()` is "-Infm" while `"-" + x.String()` is
"-+Infm", so the claimed identity fails as stated (the claim quantifies
over every Length, and a float64 Length can be +Inf). -/
theorem sign_symmetry_counterexample :
    GFloat.ge (GFloat.inf false) (GFloat.ofQ 0) = true ∧
    Length.String (GFloat.neg (GFloat.inf false)) ≠ "-" ++ Length.String (GFloat.inf false) := by
  with_unfolding_all decide

/-- C4, amended: for every finite Length x with x ≥ 0 (thereby excluding
NaN, the infinities, and the IEEE negative zero, on which the identity
fails), `(-x).String() = "-" ++ x.String()` and likewise for
`GoString()`. -/
theorem sign_symmetry_amended :
    ∀ q : ℚ, 0 ≤ q →
      Length.String (GFloat.neg (GFloat.ofQ q)) = "-" ++ Length.String (GFloat.ofQ q) ∧
      Length.GoString (GFloat.neg (GFloat.ofQ q)) = "-" ++ Length.GoString (GFloat.ofQ q) := by
  intro q hq
  rcases eq_or_lt_of_le hq with h0 | hpos
  · rw [← h0]
    constructor <;> with_unfolding_all decide
  · have hneg : GFloat.neg (GFloat.ofQ q) = .fin (-q) false := by
      simp [GFloat.neg, GFloat.ofQ, hpos.ne']
    unfold Length.String Length.GoString
    rw [hneg, length_format_neg_pos q hpos]
    constructor
    · exact String.append_assoc _ _ _
    · simp [String.append_assoc, GFloat.ofQ]

/-- Witness for C4 at x = 5 meters. -/
theorem sign_symmetry_witness :
    Length.String (GFloat.neg (GFloat.ofQ 5)) = "-" ++ Length.String (GFloat.ofQ 5) ∧
    Length.GoString (GFloat.neg (GFloat.ofQ 5)) = "-" ++ Length.GoString (GFloat.ofQ 5) :=
  sign_symmetry_amended 5 (by norm_num)

/-- Witness for C8 at x = -3. -/
theorem abs_nonneg_witness :
    GFloat.ge (Length.Abs (GFloat.ofQ (-3))) (GFloat.ofQ 0) = true ∧
    GFloat.beq (Length.Abs (GFloat.ofQ (-3))) (Length.Abs (GFloat.neg (GFloat.ofQ (-3)))) = true ∧
    GFloat.ge (Area.Abs (GFloat.ofQ (-3))) (GFloat.ofQ 0) = true ∧
    GFloat.beq (Area.Abs (GFloat.ofQ (-3))) (Area.Abs (GFloat.neg (GFloat.ofQ (-3)))) = true :=
  abs_nonneg_amended.1 (GFloat.ofQ (-3)) (by with_unfolding_all decide)

/-- C9.  `Length.PerTime` is the total IEEE division of the meter value
by the duration in seconds (multiplied by the unit scale 1); at a zero
duration it raises no error and yields +Inf, -Inf, or NaN according to
IEEE-754 division.  Every operation of the model is a total function, so
no input produces a distinguishable error. -/
theorem per_time_ieee :
    (∀ (l : Length) (d : Duration),
      Length.PerTime l d = GFloat.div l (Duration.Seconds d)) ∧
    (∀ l : Length,
      Length.PerTime l 0 = GFloat.inf false ∨
      Length.PerTime l 0 = GFloat.inf true ∨
      Length.PerTime l 0 = GFloat.nan) := by
  have h1 : ∀ (l : Length) (d : Duration),
      Length.PerTime l d = GFloat.div l (Duration.Seconds d) := by
    intro l d
    unfold Length.PerTime Length.Meters MeterPerSecond
    exact GFloat.mul_div_ofQ_one l (Duration.Seconds d)
  refine ⟨h1, ?_⟩
  intro l
  rw [h1]
  have hz : Duration.Seconds 0 = GFloat.ofQ 0 := by
    unfold Duration.Seconds
    norm_num
  rw [hz]
  rcases l with _ | n | ⟨p, np⟩
  · right; right; rfl
  · cases n
    · left
      simp [GFloat.div, GFloat.ofQ]
    · right; left
      simp [GFloat.div, GFloat.ofQ]
  · rcases eq_or_ne p 0 with hp | hp
    · right; right
      simp [GFloat.div, GFloat.ofQ, hp]
    · rcases hp.lt_or_lt with h | h
      · right; left
        simp [GFloat.div, GFloat.ofQ, hp, h]
      · left
        simp [GFloat.div, GFloat.ofQ, hp, not_lt.mpr h.le]

/-- C10.  NaN formatting fallback: for a NaN value the bypass comparison
and every threshold comparison are false, the scan finds nothing, and
both Length and Area formatting reach the base-unit fallback, printing
"NaN" with the base-unit suffix; the formatter is total. -/
theorem nan_formatting :
    Length.String GFloat.nan = "NaNm" ∧
    Length.GoString GFloat.nan = "NaN * Meter" ∧
    Area.String GFloat.nan = "NaNm^2" ∧
    Area.GoString GFloat.nan = "NaN * SquareMeter" ∧
    GFloat.ge (Length.Abs GFloat.nan) (GFloat.ofQ (1000 * kmDesc.length)) = false ∧
    unitThresholds.find?
      (fun u => GFloat.ge (Length.Abs GFloat.nan) (GFloat.ofQ u.length)) = none ∧
    GFloat.gt (Area.Abs GFloat.nan) (GFloat.ofQ (1000000 * squareKmDesc.area)) = false ∧
    areaUnitThresholds.find?
      (fun u => GFloat.ge (Area.Abs GFloat.nan) (GFloat.ofQ u.area)) = none := by
  with_unfolding_all decide

end GoUnits
